import Mathlib

/-!
Shallow embedding of `sickbeard/scene_numbering.py` (SickRage).

The module resolves episode numbering between an indexer's scheme and the
"scene" scheme, with a three-tier fallback: user override table
(`scene_numbering`, main store), remote XEM mapping cache (`xem_numbering`,
cache store, with a per-show `xem_refresh` staleness marker), and identity.

Modelling choices:
* Python integers are `Int`; a parameter that may be Python `None` is
  `Option Int`.
* The two SQLite stores are lists of rows held in a single `DB` record,
  together with an instrumentation counter of HTTP GETs issued
  (the spec asks staleness behaviour to be observable "via fetch call-count").
* A function's return value that may be either Python `None` or a 2-tuple of
  possibly-`None` ints is `LookupResult`; Python truthiness of such a value
  (`if result:`) is `LookupResult.truthy` -- a tuple is always truthy, `None`
  never is.  This truthiness is load-bearing for `get_scene_numbering`.
* The network world is a pair of response functions (primary endpoint,
  secondary mirror).  A response is an exception while fetching/parsing
  (`exn`), a body parsed to `None`/empty string (`isNone`), a parsed value
  that is falsy without being `None`/`''` (`falsy`, e.g. an empty dict), or a
  truthy JSON dict (`ok` with an `XemPayload`).
* Exceptions inside the `try` block of `_xem_refresh` are modelled by early
  return of the state mutated so far (the `except` clause only logs).
-/

namespace SceneNumbering

/-- One row of either numbering table
(`indexer_id, season, episode, scene_season, scene_episode`). -/
structure SNRow where
  indexer_id : Int
  season : Int
  episode : Int
  scene_season : Int
  scene_episode : Int
deriving DecidableEq, Repr

/-- A JSON entry of the XEM payload's `data` array.  A field is `none` when
the corresponding key is absent from the entry's dict (so that accessing it
raises `KeyError`).  Sub-dicts, when present, are the pair (season, episode). -/
structure XemEntry where
  tvdb : Option (Int × Int)
  scene : Option (Int × Int)
  scene_2 : Option (Int × Int)
deriving DecidableEq, Repr

/-- A truthy JSON dict returned by an endpoint: the `result` field (`none`
when the key is absent, so that `result['result']` raises `KeyError`), the
failure `message`, and the `data` array of mapping entries. -/
structure XemPayload where
  result : Option String
  message : String
  data : List XemEntry
deriving DecidableEq, Repr

/-- Outcome of `requests.get(url).json()` for one endpoint:
`exn` -- the GET or the JSON parse raised;
`isNone` -- the parsed body is `None` (or compares equal to `''`);
`falsy` -- the parsed body passes the `is None or == ''` test but is falsy
(e.g. an empty dict), so `if result:` fails;
`ok p` -- the parsed body is a truthy dict `p`. -/
inductive FetchResult where
  | exn : FetchResult
  | isNone : FetchResult
  | falsy : FetchResult
  | ok : XemPayload → FetchResult
deriving DecidableEq, Repr

/-- The environment of a call: the current `time.time()` and what each of the
two remote endpoints answers for a given show id. -/
structure World where
  now : Int
  primaryResp : Int → FetchResult
  secondaryResp : Int → FetchResult

/-- The persistent state: override table `scene_numbering` (main store),
remote-mapping table `xem_numbering` and marker table `xem_refresh` (cache
store), plus the count of HTTP GETs issued so far (instrumentation only). -/
structure DB where
  scene_numbering : List SNRow
  xem_numbering : List SNRow
  xem_refresh : List (Int × Int)
  fetchCount : Nat
deriving DecidableEq, Repr

/-- A Python value that is either `None` or a 2-tuple whose components are
ints or `None`: the return type shared by the lookup functions. -/
inductive LookupResult where
  | pynone : LookupResult
  | pair : Option Int → Option Int → LookupResult
deriving DecidableEq, Repr

/-- Python truthiness of a `LookupResult`: `None` is falsy; a (non-empty)
tuple is always truthy, whatever its components are. -/
def LookupResult.truthy : LookupResult → Bool
  | .pynone => false
  | .pair _ _ => true

/-- `MAX_XEM_AGE_SECS = 86400` (one day). -/
def MAX_XEM_AGE_SECS : Int := 86400

/-- Python `'success' in s` (substring containment), as contiguous-sublist
containment on the character lists. -/
def strContainsSuccess (s : String) : Bool :=
  decide ("success".toList <:+: s.toList)

/-- Modelled from the spec: the cache datastore's `INSERT OR REPLACE` on the
`xem_refresh` table (the datastore layer `sickbeard.db` is outside this
module).  `indexer_id` is the primary key, so the new row replaces any
existing row for the same show. -/
def upsertMarker (markers : List (Int × Int)) (iid t : Int) : List (Int × Int) :=
  markers.filter (fun m => !decide (m.1 = iid)) ++ [(iid, t)]

/-- Modelled from the spec: the cache datastore's `INSERT` on the
`xem_numbering` table (the datastore layer `sickbeard.db` is outside this
module).  The table's primary key is `(indexer_id, season, episode)`; per the
spec a second write under the same key is treated as last-entry-wins. -/
def xemInsert (rows : List SNRow) (row : SNRow) : List SNRow :=
  rows.filter
    (fun r => !decide (r.indexer_id = row.indexer_id ∧ r.season = row.season ∧ r.episode = row.episode))
    ++ [row]

/-- The insertion loop of `_xem_refresh` over `result['data']`.  Returns the
table contents together with `true` when an entry raised `KeyError` on
`entry['tvdb']` (which aborts the loop, keeping the rows inserted so far). -/
def insertEntries (iid : Int) : List SNRow → List XemEntry → List SNRow × Bool
  | rows, [] => (rows, false)
  | rows, entry :: rest =>
    match entry.scene, entry.scene_2 with
    | none, none => insertEntries iid rows rest
    | _, _ =>
      match entry.tvdb with
      | none => (rows, true)
      | some tv =>
        let rows1 := match entry.scene with
          | some sc => xemInsert rows ⟨iid, tv.1, tv.2, sc.1, sc.2⟩
          | none => rows
        let rows2 := match entry.scene_2 with
          | some sc => xemInsert rows1 ⟨iid, tv.1, tv.2, sc.1, sc.2⟩
          | none => rows1
        insertEntries iid rows2 rest

/-- The body of `_xem_refresh` once a truthy parsed payload is in hand
(`result = data; if result:`): upsert the marker, then inspect
`result['result']` -- a missing key raises (caught by the outer handler,
state so far kept); a value containing `'success'` replaces the show's rows
by the payload's entries; any other value only logs. -/
def processPayload (w : World) (db : DB) (iid : Int) (p : XemPayload) : DB :=
  let db1 : DB := { db with xem_refresh := upsertMarker db.xem_refresh iid w.now }
  match p.result with
  | none => db1
  | some rs =>
    if strContainsSuccess rs then
      let cleared := db1.xem_numbering.filter (fun r => !decide (r.indexer_id = iid))
      { db1 with xem_numbering := (insertEntries iid cleared p.data).1 }
    else
      db1

/-- `_xem_refresh(indexer_id)`: GET the primary endpoint; if the parsed body
is `None`/`''`, GET the secondary mirror; a truthy payload is processed by
`processPayload`; an exception anywhere in the `try` block is caught and
logged, keeping the state mutated up to that point.  Each GET issued
increments `fetchCount`. -/
def xem_refresh (w : World) (db : DB) (indexer_id : Option Int) : DB :=
  match indexer_id with
  | none => db
  | some iid =>
    let db1 : DB := { db with fetchCount := db.fetchCount + 1 }
    match w.primaryResp iid with
    | .exn => db1
    | .falsy => db1
    | .ok p => processPayload w db1 iid p
    | .isNone =>
      let db2 : DB := { db1 with fetchCount := db1.fetchCount + 1 }
      match w.secondaryResp iid with
      | .exn => db2
      | .isNone => db2
      | .falsy => db2
      | .ok p => processPayload w db2 iid p

/-- `_xem_refresh_needed(indexer_id)`: `False` for a `None` id; `True` when
no marker row exists; otherwise `time.time() > last_refreshed + MAX_XEM_AGE_SECS`. -/
def xem_refresh_needed (w : World) (db : DB) (indexer_id : Option Int) : Bool :=
  match indexer_id with
  | none => false
  | some iid =>
    match (db.xem_refresh.filter (fun m => decide (m.1 = iid))).head? with
    | some m => decide (w.now > m.2 + MAX_XEM_AGE_SECS)
    | none => true

/-- `find_scene_numbering(indexer_id, season, episode)`: point query of the
override table.  NOTE: on a miss the source returns `(season, episode)`, not
`None` (despite its docstring saying it returns `None` when no scene
numbering is set). -/
def find_scene_numbering (store : List SNRow) (indexer_id season episode : Option Int) :
    LookupResult :=
  match indexer_id, season, episode with
  | some iid, some s, some e =>
    match (store.filter
        (fun r => decide (r.indexer_id = iid ∧ r.season = s ∧ r.episode = e))).head? with
    | some r => .pair (some r.scene_season) (some r.scene_episode)
    | none => .pair (some s) (some e)
  | _, _, _ => .pair season episode

/-- `find_xem_numbering(indexer_id, season, episode)`: refresh if stale, then
point query of the cache table; `None` on a miss. -/
def find_xem_numbering (w : World) (db : DB) (indexer_id season episode : Option Int) :
    LookupResult × DB :=
  match indexer_id, season, episode with
  | some iid, some s, some e =>
    let db1 := if xem_refresh_needed w db indexer_id then xem_refresh w db indexer_id else db
    match (db1.xem_numbering.filter
        (fun r => decide (r.indexer_id = iid ∧ r.season = s ∧ r.episode = e))).head? with
    | some r => (.pair (some r.scene_season) (some r.scene_episode), db1)
    | none => (.pynone, db1)
  | _, _, _ => (.pynone, db)

/-- `get_scene_numbering(indexer_id, season, episode, fallback_to_xem)`:
`None` arguments short-circuit to the input pair; otherwise take the override
table's answer if truthy (`if result:`), else try XEM, else identity. -/
def get_scene_numbering (w : World) (db : DB) (indexer_id season episode : Option Int)
    (fallback_to_xem : Bool) : LookupResult × DB :=
  match indexer_id, season, episode with
  | some _, some _, some _ =>
    let result := find_scene_numbering db.scene_numbering indexer_id season episode
    if result.truthy then (result, db)
    else
      if fallback_to_xem then
        match find_xem_numbering w db indexer_id season episode with
        | (xem_result, db1) =>
          if xem_result.truthy then (xem_result, db1)
          else (.pair season episode, db1)
      else (.pair season episode, db)
  | _, _, _ => (.pair season episode, db)

/-- `get_indexer_numbering_for_xem(indexer_id, sceneSeason, sceneEpisode)`:
refresh if stale, then reverse point query of the cache table; returns the
input pair on a miss and `None` if any argument is `None`. -/
def get_indexer_numbering_for_xem (w : World) (db : DB)
    (indexer_id sceneSeason sceneEpisode : Option Int) : LookupResult × DB :=
  match indexer_id, sceneSeason, sceneEpisode with
  | some iid, some ss, some se =>
    let db1 := if xem_refresh_needed w db indexer_id then xem_refresh w db indexer_id else db
    match (db1.xem_numbering.filter
        (fun r => decide (r.indexer_id = iid ∧ r.scene_season = ss ∧ r.scene_episode = se))).head? with
    | some r => (.pair (some r.season) (some r.episode), db1)
    | none => (.pair (some ss) (some se), db1)
  | _, _, _ => (.pynone, db)

/-- `get_indexer_numbering(indexer_id, sceneSeason, sceneEpisode, fallback_to_xem)`:
reverse point query of the override table, falling back to the XEM reverse
lookup, else identity. -/
def get_indexer_numbering (w : World) (db : DB)
    (indexer_id sceneSeason sceneEpisode : Option Int) (fallback_to_xem : Bool) :
    LookupResult × DB :=
  match indexer_id, sceneSeason, sceneEpisode with
  | some iid, some ss, some se =>
    match (db.scene_numbering.filter
        (fun r => decide (r.indexer_id = iid ∧ r.scene_season = ss ∧ r.scene_episode = se))).head? with
    | some r => (.pair (some r.season) (some r.episode), db)
    | none =>
      if fallback_to_xem then
        get_indexer_numbering_for_xem w db indexer_id sceneSeason sceneEpisode
      else (.pair sceneSeason sceneEpisode, db)
  | _, _, _ => (.pair sceneSeason sceneEpisode, db)

/-- `set_scene_numbering(indexer_id, season, episode, sceneSeason, sceneEpisode)`:
delete any existing override row for the key, then insert a new row only when
both scene values are not `None`. -/
def set_scene_numbering (store : List SNRow) (indexer_id season episode : Option Int)
    (sceneSeason sceneEpisode : Option Int) : List SNRow :=
  match indexer_id, season, episode with
  | some iid, some s, some e =>
    let deleted := store.filter
      (fun r => !decide (r.indexer_id = iid ∧ r.season = s ∧ r.episode = e))
    match sceneSeason, sceneEpisode with
    | some ss, some se => deleted ++ [⟨iid, s, e, ss, se⟩]
    | _, _ => deleted
  | _, _, _ => store

/-- `dict.setdefault(k, []).append(v)` on a dict of int keys and int-list
values, the dict modelled as an association list in insertion order. -/
def sdAppend : List (Int × List Int) → Int → Int → List (Int × List Int)
  | [], k, v => [(k, [v])]
  | (k1, vs) :: rest, k, v =>
    if k1 = k then (k1, vs ++ [v]) :: rest
    else (k1, vs) :: sdAppend rest k v

/-- `get_xem_numbering_for_season(indexer_id, season)`: refresh if stale,
select the season's cached rows, then accumulate
`result.setdefault(row['season'], []).append(row['scene_season'])`;
when no rows match, `result.setdefault(season, []).append(season)`. -/
def get_xem_numbering_for_season (w : World) (db : DB) (indexer_id season : Option Int) :
    List (Int × List Int) × DB :=
  match indexer_id, season with
  | some iid, some s =>
    let db1 := if xem_refresh_needed w db indexer_id then xem_refresh w db indexer_id else db
    let rows := db1.xem_numbering.filter
      (fun r => decide (r.indexer_id = iid ∧ r.season = s))
    match rows with
    | [] => (sdAppend [] s s, db1)
    | _ => (rows.foldl (fun m r => sdAppend m r.season r.scene_season) [], db1)
  | _, _ => ([], db)

/-! General helper lemmas about filters. -/

/-- Filtering by `g` after filtering by a weaker predicate `f` is the same as
filtering by `g` alone. -/
theorem filter_filter_of_imp {α : Type} (f g : α → Bool) (l : List α)
    (h : ∀ a, g a = true → f a = true) :
    (l.filter f).filter g = l.filter g := by
  induction l with
  | nil => rfl
  | cons a t ih =>
    cases hf : f a with
    | true => cases hg : g a <;> simp [List.filter_cons, hf, hg, ih]
    | false =>
      have hg : g a = false := by
        cases hge : g a with
        | true => exact absurd (h a hge) (by simp [hf])
        | false => rfl
      simp [List.filter_cons, hf, hg, ih]

/-- Filtering by `g` after filtering by a predicate excluding `g` gives the
empty list. -/
theorem filter_filter_disjoint {α : Type} (f g : α → Bool) (l : List α)
    (h : ∀ a, f a = true → g a = false) :
    (l.filter f).filter g = [] := by
  induction l with
  | nil => rfl
  | cons a t ih =>
    cases hf : f a with
    | true => simp [List.filter_cons, hf, h a hf, ih]
    | false => simp [List.filter_cons, hf, ih]

/-- After deleting all rows satisfying `p`, no row satisfying `p` remains. -/
theorem filter_not_then_filter {α : Type} (p : α → Prop) [DecidablePred p] (l : List α) :
    (l.filter (fun r => !decide (p r))).filter (fun r => decide (p r)) = [] := by
  apply filter_filter_disjoint
  intro a ha
  simp at ha
  simp [ha]

/-! Claim theorems. -/

/-- C1 (code_bug evaluation): for show 1, season 1, episode 1, with an empty
override store and a fresh cached remote mapping (1,1,1) -> (2,5),
`get_scene_numbering` returns `(1, 1)` instead of the remote pair `(2, 5)`:
`find_scene_numbering` returns the input pair (a truthy tuple) on a miss
instead of the `None` its docstring promises, so the XEM fallback branch of
`get_scene_numbering` is unreachable even though `find_xem_numbering` itself
would answer `(2, 5)`. -/
theorem C1_xem_fallback_unreachable :
    (get_scene_numbering ⟨1000, fun _ => .exn, fun _ => .exn⟩
        ⟨[], [⟨1, 1, 1, 2, 5⟩], [(1, 1000)], 0⟩ (some 1) (some 1) (some 1) true).1
      = .pair (some 1) (some 1)
    ∧ find_scene_numbering [] (some 1) (some 1) (some 1) = .pair (some 1) (some 1)
    ∧ (find_xem_numbering ⟨1000, fun _ => .exn, fun _ => .exn⟩
        ⟨[], [⟨1, 1, 1, 2, 5⟩], [(1, 1000)], 0⟩ (some 1) (some 1) (some 1)).1
      = .pair (some 2) (some 5) := by
  refine ⟨by decide, by decide, by decide⟩

/-- C5: with all three identifiers present, no override row and no cached
remote row for the key, `get_scene_numbering` returns the input pair
unchanged. -/
theorem C5_identity_when_no_mapping (w : World) (db : DB) (iid s e : Int)
    (hov : db.scene_numbering.filter
        (fun r => decide (r.indexer_id = iid ∧ r.season = s ∧ r.episode = e)) = [])
    (hxem : db.xem_numbering.filter
        (fun r => decide (r.indexer_id = iid ∧ r.season = s ∧ r.episode = e)) = []) :
    (get_scene_numbering w db (some iid) (some s) (some e) true).1
      = .pair (some s) (some e) := by
  simp only [get_scene_numbering, find_scene_numbering]
  rw [hov]
  rfl

theorem C5_identity_when_no_mapping_witness :
    (get_scene_numbering ⟨0, fun _ => .exn, fun _ => .exn⟩ ⟨[], [], [], 0⟩
        (some 1) (some 1) (some 1) true).1 = .pair (some 1) (some 1) :=
  C5_identity_when_no_mapping ⟨0, fun _ => .exn, fun _ => .exn⟩ ⟨[], [], [], 0⟩ 1 1 1 rfl rfl

/-- C6: after `set_scene_numbering` with both scene values present,
`get_scene_numbering` on the same key returns exactly that scene pair,
whatever the remote cache holds. -/
theorem C6_override_wins (w : World) (db : DB) (iid s e ss se : Int) :
    (get_scene_numbering w
        ⟨set_scene_numbering db.scene_numbering (some iid) (some s) (some e) (some ss) (some se),
          db.xem_numbering, db.xem_refresh, db.fetchCount⟩
        (some iid) (some s) (some e) true).1
      = .pair (some ss) (some se) := by
  have h := filter_not_then_filter
    (fun r : SNRow => r.indexer_id = iid ∧ r.season = s ∧ r.episode = e) db.scene_numbering
  simp only [get_scene_numbering, find_scene_numbering, set_scene_numbering]
  rw [List.filter_append, h]
  simp [LookupResult.truthy]

/-- C3 counterexample: with `sceneSeason = some 5` and `sceneEpisode = none`
(a combination other than both-absent), `set_scene_numbering` does not
perform delete-then-insert: it deletes the existing override and inserts
nothing, leaving no record at all. -/
theorem C3_mixed_scene_args_only_delete :
    set_scene_numbering [⟨1, 1, 1, 3, 3⟩] (some 1) (some 1) (some 1) (some 5) none = [] := by
  decide

/-- C3 (amended): `set_scene_numbering` deletes any existing override row for
the key whenever either scene value is `None`; only when both scene values
are present does it delete-then-insert, leaving exactly one override row for
the key, which maps to the given scene pair. -/
theorem C3_set_replace_semantics (store : List SNRow) (iid s e : Int) (ss se : Option Int) :
    ((ss = none ∨ se = none) →
      set_scene_numbering store (some iid) (some s) (some e) ss se
        = store.filter (fun r => !decide (r.indexer_id = iid ∧ r.season = s ∧ r.episode = e)))
    ∧ (∀ a b : Int, ss = some a → se = some b →
      (set_scene_numbering store (some iid) (some s) (some e) ss se).filter
          (fun r => decide (r.indexer_id = iid ∧ r.season = s ∧ r.episode = e))
        = [⟨iid, s, e, a, b⟩]) := by
  constructor
  · rintro (rfl | rfl)
    · cases se <;> simp [set_scene_numbering]
    · cases ss <;> simp [set_scene_numbering]
  · rintro a b rfl rfl
    simp [set_scene_numbering, List.filter_append,
      filter_not_then_filter
        (fun r : SNRow => r.indexer_id = iid ∧ r.season = s ∧ r.episode = e) store]

theorem C3_set_replace_semantics_witness :
    set_scene_numbering [⟨1, 1, 1, 3, 3⟩] (some 1) (some 1) (some 1) none none = [] := by
  have h := (C3_set_replace_semantics [⟨1, 1, 1, 3, 3⟩] 1 1 1 none none).1 (Or.inl rfl)
  rw [h]; decide

/-- `processPayload` never touches the fetch counter. -/
theorem processPayload_fetchCount (w : World) (db : DB) (iid : Int) (p : XemPayload) :
    (processPayload w db iid p).fetchCount = db.fetchCount := by
  unfold processPayload
  cases p.result with
  | none => rfl
  | some rs => cases hs : strContainsSuccess rs <;> simp [hs]

/-- C2 counterexample: a refresh attempt that raises can leave the marker
updated, and can even destroy the show's prior cached rows.  First scenario:
the primary endpoint returns a truthy dict without a `result` key, so
`result['result']` raises `KeyError` -- after the marker upsert -- and the
marker ends up written.  Second scenario: a success payload whose first entry
lacks the `tvdb` key raises mid-loop, after the show's prior rows were
already deleted. -/
theorem C2_exception_after_marker_upsert :
    (xem_refresh ⟨777, fun _ => .ok ⟨none, "", []⟩, fun _ => .exn⟩
        ⟨[], [⟨9, 1, 1, 4, 4⟩], [], 0⟩ (some 9)).xem_refresh = [(9, 777)]
    ∧ (xem_refresh ⟨777, fun _ => .ok ⟨some "success", "", [⟨none, some (2, 2), none⟩]⟩,
          fun _ => .exn⟩
        ⟨[], [⟨9, 1, 1, 4, 4⟩], [], 0⟩ (some 9)).xem_numbering = [] := by
  refine ⟨by decide, by decide⟩

/-- C2 (amended): a refresh attempt that raises while fetching or parsing --
that is, before a truthy payload has been obtained: the primary GET raises,
or the primary body parses to `None`/`''` and the secondary GET raises --
leaves the refresh marker not updated and the show's prior cached rows
untouched, so the show remains stale and the next lookup retries.  (An
exception raised after a truthy payload is obtained happens after the marker
upsert, so the marker is updated in that case; see the counterexample.) -/
theorem C2_fetch_exception_preserves_state (w : World) (db : DB) (iid : Int)
    (h : w.primaryResp iid = .exn
       ∨ (w.primaryResp iid = .isNone ∧ w.secondaryResp iid = .exn)) :
    (xem_refresh w db (some iid)).xem_refresh = db.xem_refresh
    ∧ (xem_refresh w db (some iid)).xem_numbering = db.xem_numbering := by
  rcases h with h | ⟨h1, h2⟩
  · simp [xem_refresh, h]
  · simp [xem_refresh, h1, h2]

theorem C2_fetch_exception_preserves_state_witness :
    (xem_refresh ⟨0, fun _ => .exn, fun _ => .exn⟩
        ⟨[], [⟨9, 1, 1, 4, 4⟩], [(9, 0)], 0⟩ (some 9)).xem_refresh = [(9, 0)] := by
  have h := C2_fetch_exception_preserves_state ⟨0, fun _ => .exn, fun _ => .exn⟩
    ⟨[], [⟨9, 1, 1, 4, 4⟩], [(9, 0)], 0⟩ 9 (Or.inl rfl)
  exact h.1

/-- C4 counterexample: when the primary endpoint's body is unparseable,
`.json()` raises and the exception handler ends the refresh: only one GET is
issued -- the secondary mirror is never consulted, even though here it would
have returned a success payload -- and the refresh is aborted (no rows, no
marker). -/
theorem C4_unparseable_primary_skips_secondary :
    (xem_refresh ⟨50, fun _ => .exn,
        fun _ => .ok ⟨some "success", "", [⟨some (1, 1), some (2, 1), none⟩]⟩⟩
        ⟨[], [], [], 0⟩ (some 3)).fetchCount = 1
    ∧ (xem_refresh ⟨50, fun _ => .exn,
        fun _ => .ok ⟨some "success", "", [⟨some (1, 1), some (2, 1), none⟩]⟩⟩
        ⟨[], [], [], 0⟩ (some 3)).xem_numbering = []
    ∧ (xem_refresh ⟨50, fun _ => .exn,
        fun _ => .ok ⟨some "success", "", [⟨some (1, 1), some (2, 1), none⟩]⟩⟩
        ⟨[], [], [], 0⟩ (some 3)).xem_refresh = [] := by
  refine ⟨by decide, by decide, by decide⟩

/-- C4 (amended): the secondary mirror is consulted exactly when the primary
GET succeeds and its body parses to `None` (or `''`): then two GETs are
issued.  A primary fetch/parse exception, or a parsed-but-falsy non-`None`
body, aborts the refresh after a single GET without touching the tables; and
when the secondary is consulted but raises or also parses to `None`/`''`,
the refresh is aborted with the tables untouched. -/
theorem C4_secondary_only_on_none_body (w : World) (db : DB) (iid : Int) :
    (w.primaryResp iid = .isNone →
        (xem_refresh w db (some iid)).fetchCount = db.fetchCount + 2)
    ∧ (w.primaryResp iid = .exn →
        xem_refresh w db (some iid) = ⟨db.scene_numbering, db.xem_numbering,
          db.xem_refresh, db.fetchCount + 1⟩)
    ∧ (w.primaryResp iid = .falsy →
        xem_refresh w db (some iid) = ⟨db.scene_numbering, db.xem_numbering,
          db.xem_refresh, db.fetchCount + 1⟩)
    ∧ (w.primaryResp iid = .isNone →
        (w.secondaryResp iid = .exn ∨ w.secondaryResp iid = .isNone) →
        xem_refresh w db (some iid) = ⟨db.scene_numbering, db.xem_numbering,
          db.xem_refresh, db.fetchCount + 2⟩) := by
  refine ⟨?_, ?_, ?_, ?_⟩
  · intro h
    cases hs : w.secondaryResp iid <;>
      simp [xem_refresh, h, hs, processPayload_fetchCount]
  · intro h
    simp [xem_refresh, h]
  · intro h
    simp [xem_refresh, h]
  · rintro h (hs | hs) <;> simp [xem_refresh, h, hs]

theorem C4_secondary_only_on_none_body_witness :
    (xem_refresh ⟨0, fun _ => .isNone, fun _ => .exn⟩ ⟨[], [], [], 0⟩ (some 1)).fetchCount = 2 := by
  have h := (C4_secondary_only_on_none_body ⟨0, fun _ => .isNone, fun _ => .exn⟩
    ⟨[], [], [], 0⟩ 1).1 rfl
  exact h

/-- C7: with the override store holding exactly the record written by
`set_scene_numbering(show, s, e, ss, se)` and no remote interference, the
reverse lookup undoes the forward lookup: `get_scene_numbering` answers
`(ss, se)`, and `get_indexer_numbering` applied to that answer (and the
resulting state) gives back `(s, e)`. -/
theorem C7_reverse_undoes_forward (w : World) (db : DB) (iid s e ss se : Int)
    (hstore : db.scene_numbering
      = set_scene_numbering [] (some iid) (some s) (some e) (some ss) (some se)) :
    (get_scene_numbering w db (some iid) (some s) (some e) true).1 = .pair (some ss) (some se)
    ∧ (get_indexer_numbering w (get_scene_numbering w db (some iid) (some s) (some e) true).2
        (some iid) (some ss) (some se) true).1 = .pair (some s) (some e) := by
  have hs : db.scene_numbering = [⟨iid, s, e, ss, se⟩] := by
    simpa [set_scene_numbering] using hstore
  have hget : get_scene_numbering w db (some iid) (some s) (some e) true
      = (.pair (some ss) (some se), db) := by
    simp [get_scene_numbering, find_scene_numbering, hs, LookupResult.truthy, List.filter_cons]
  refine ⟨by rw [hget], ?_⟩
  rw [hget]
  simp [get_indexer_numbering, hs, List.filter_cons]

theorem C7_reverse_undoes_forward_witness :
    (get_indexer_numbering ⟨0, fun _ => .exn, fun _ => .exn⟩
        (get_scene_numbering ⟨0, fun _ => .exn, fun _ => .exn⟩
          ⟨[⟨1, 1, 1, 1, 101⟩], [], [], 0⟩ (some 1) (some 1) (some 1) true).2
        (some 1) (some 1) (some 101) true).1 = .pair (some 1) (some 1) := by
  have h := C7_reverse_undoes_forward ⟨0, fun _ => .exn, fun _ => .exn⟩
    ⟨[⟨1, 1, 1, 1, 101⟩], [], [], 0⟩ 1 1 1 1 101 (by decide)
  exact h.2

/-- C8: a show with no marker row is stale; a successful refresh upserts the
marker with the current time (so the show's marker row is exactly
`(show, now)`); and while a later lookup's clock is within 86400 seconds of
the marker the show is fresh, so `find_xem_numbering` issues no fetch (the
fetch count is unchanged). -/
theorem C8_staleness_policy (w w2 : World) (db : DB) (iid t s e : Int)
    (p : XemPayload) (rs : String)
    (hok : w.primaryResp iid = .ok p) (hres : p.result = some rs)
    (hsucc : strContainsSuccess rs = true) :
    ((db.xem_refresh.filter (fun m => decide (m.1 = iid))).head? = none →
        xem_refresh_needed w db (some iid) = true)
    ∧ (xem_refresh w db (some iid)).xem_refresh.filter (fun m => decide (m.1 = iid))
        = [(iid, w.now)]
    ∧ ((db.xem_refresh.filter (fun m => decide (m.1 = iid))).head? = some (iid, t) →
        w2.now ≤ t + MAX_XEM_AGE_SECS →
        xem_refresh_needed w2 db (some iid) = false
        ∧ (find_xem_numbering w2 db (some iid) (some s) (some e)).2.fetchCount
            = db.fetchCount) := by
  refine ⟨?_, ?_, ?_⟩
  · intro h0
    simp only [xem_refresh_needed, h0]
  · have hmark : (xem_refresh w db (some iid)).xem_refresh
        = upsertMarker db.xem_refresh iid w.now := by
      simp [xem_refresh, hok, processPayload, hres, hsucc]
    rw [hmark]
    unfold upsertMarker
    rw [List.filter_append, filter_not_then_filter (fun m : Int × Int => m.1 = iid)]
    simp
  · intro hm hle
    have hle2 : w2.now ≤ t + 86400 := by simpa [MAX_XEM_AGE_SECS] using hle
    have hneed : xem_refresh_needed w2 db (some iid) = false := by
      simp only [xem_refresh_needed, hm, MAX_XEM_AGE_SECS]
      simp only [decide_eq_false_iff_not, not_lt]
      omega
    refine ⟨hneed, ?_⟩
    simp only [find_xem_numbering, hneed, Bool.false_eq_true, if_false]
    cases (db.xem_numbering.filter
        (fun r => decide (r.indexer_id = iid ∧ r.season = s ∧ r.episode = e))).head? <;> rfl

theorem C8_staleness_policy_witness :
    (xem_refresh ⟨500, fun _ => .ok ⟨some "success", "", []⟩, fun _ => .exn⟩
        ⟨[], [], [(4, 100)], 0⟩ (some 4)).xem_refresh.filter (fun m => decide (m.1 = 4))
      = [(4, 500)]
    ∧ (find_xem_numbering ⟨500, fun _ => .exn, fun _ => .exn⟩
        ⟨[], [], [(4, 100)], 0⟩ (some 4) (some 1) (some 1)).2.fetchCount = 0 := by
  have h := C8_staleness_policy ⟨500, fun _ => .ok ⟨some "success", "", []⟩, fun _ => .exn⟩
    ⟨500, fun _ => .exn, fun _ => .exn⟩ ⟨[], [], [(4, 100)], 0⟩ 4 100 1 1
    ⟨some "success", "", []⟩ "success" rfl rfl (by decide)
  exact ⟨h.2.1, (h.2.2 (by decide) (by decide)).2⟩

/-- `xemInsert` of a row never touches rows of other shows. -/
theorem xemInsert_frame (rows : List SNRow) (row : SNRow) :
    (xemInsert rows row).filter (fun r => !decide (r.indexer_id = row.indexer_id))
      = rows.filter (fun r => !decide (r.indexer_id = row.indexer_id)) := by
  unfold xemInsert
  rw [List.filter_append]
  have h1 : [row].filter (fun r => !decide (r.indexer_id = row.indexer_id)) = [] := by
    simp
  rw [h1, List.append_nil]
  apply filter_filter_of_imp
  intro a ha
  simp only [Bool.not_eq_true', decide_eq_false_iff_not] at ha ⊢
  exact fun hc => ha hc.1

/-- The insertion loop of `_xem_refresh` only writes rows of the refreshed
show: whatever prefix of the entries it processes before a possible
exception, rows of other shows are unchanged. -/
theorem insertEntries_frame (iid : Int) (entries : List XemEntry) (rows : List SNRow) :
    ((insertEntries iid rows entries).1).filter (fun r => !decide (r.indexer_id = iid))
      = rows.filter (fun r => !decide (r.indexer_id = iid)) := by
  induction entries generalizing rows with
  | nil => rfl
  | cons entry rest ih =>
    cases hsc : entry.scene with
    | none =>
      cases hsc2 : entry.scene_2 with
      | none => simp only [insertEntries, hsc, hsc2]; exact ih rows
      | some sc2 =>
        cases htv : entry.tvdb with
        | none => simp [insertEntries, hsc, hsc2, htv]
        | some tv =>
          have hx := xemInsert_frame rows ⟨iid, tv.1, tv.2, sc2.1, sc2.2⟩
          simp only [insertEntries, hsc, hsc2, htv]
          rw [ih]
          exact hx
    | some sc =>
      cases htv : entry.tvdb with
      | none =>
        cases hsc2 : entry.scene_2 with
        | none => simp [insertEntries, hsc, hsc2, htv]
        | some sc2 => simp [insertEntries, hsc, hsc2, htv]
      | some tv =>
        cases hsc2 : entry.scene_2 with
        | none =>
          have hx := xemInsert_frame rows ⟨iid, tv.1, tv.2, sc.1, sc.2⟩
          simp only [insertEntries, hsc, hsc2, htv]
          rw [ih]
          exact hx
        | some sc2 =>
          have hx1 := xemInsert_frame rows ⟨iid, tv.1, tv.2, sc.1, sc.2⟩
          have hx2 := xemInsert_frame (xemInsert rows ⟨iid, tv.1, tv.2, sc.1, sc.2⟩)
            ⟨iid, tv.1, tv.2, sc2.1, sc2.2⟩
          simp only [insertEntries, hsc, hsc2, htv]
          rw [ih, hx2, hx1]

/-- C9: when a refresh obtains a payload whose result indicator signals
success, the show's cached rows are exactly the payload's entries inserted
into a cache cleared of every prior row of that show, while cached rows of
every other show are unchanged. -/
theorem C9_success_replaces_show_rows_only (w : World) (db : DB) (iid : Int)
    (p : XemPayload) (rs : String)
    (hok : w.primaryResp iid = .ok p) (hres : p.result = some rs)
    (hsucc : strContainsSuccess rs = true) :
    (xem_refresh w db (some iid)).xem_numbering
      = (insertEntries iid
          (db.xem_numbering.filter (fun r => !decide (r.indexer_id = iid))) p.data).1
    ∧ (xem_refresh w db (some iid)).xem_numbering.filter
          (fun r => !decide (r.indexer_id = iid))
      = db.xem_numbering.filter (fun r => !decide (r.indexer_id = iid)) := by
  have h1 : (xem_refresh w db (some iid)).xem_numbering
      = (insertEntries iid
          (db.xem_numbering.filter (fun r => !decide (r.indexer_id = iid))) p.data).1 := by
    simp [xem_refresh, hok, processPayload, hres, hsucc]
  refine ⟨h1, ?_⟩
  rw [h1, insertEntries_frame]
  exact filter_filter_of_imp _ _ _ (fun a ha => ha)

theorem C9_success_replaces_show_rows_only_witness :
    (xem_refresh
        ⟨100, fun _ => .ok ⟨some "success", "", [⟨some (1, 1), some (5, 6), none⟩]⟩,
          fun _ => .exn⟩
        ⟨[], [⟨2, 1, 1, 9, 9⟩, ⟨3, 1, 1, 8, 8⟩], [], 0⟩ (some 2)).xem_numbering.filter
        (fun r => !decide (r.indexer_id = 2))
      = [⟨3, 1, 1, 8, 8⟩] := by
  have h := C9_success_replaces_show_rows_only
    ⟨100, fun _ => .ok ⟨some "success", "", [⟨some (1, 1), some (5, 6), none⟩]⟩,
      fun _ => .exn⟩
    ⟨[], [⟨2, 1, 1, 9, 9⟩, ⟨3, 1, 1, 8, 8⟩], [], 0⟩ 2
    ⟨some "success", "", [⟨some (1, 1), some (5, 6), none⟩]⟩ "success" rfl rfl (by decide)
  rw [h.2]
  decide

/-- Folding the `setdefault`-append step over rows that all carry the same
season key extends the single bucket in order. -/
theorem foldl_sdAppend_const (s : Int) (rows : List SNRow) (acc : List Int)
    (hrows : ∀ r ∈ rows, r.season = s) :
    rows.foldl (fun m r => sdAppend m r.season r.scene_season) [(s, acc)]
      = [(s, acc ++ rows.map (fun r => r.scene_season))] := by
  induction rows generalizing acc with
  | nil => simp
  | cons a t ih =>
    have ha : a.season = s := hrows a (List.mem_cons_self a t)
    have hstep : sdAppend [(s, acc)] a.season a.scene_season
        = [(s, acc ++ [a.scene_season])] := by
      simp [sdAppend, ha]
    rw [List.foldl_cons, hstep, ih (acc ++ [a.scene_season])
      (fun r hr => hrows r (List.mem_cons_of_mem a hr))]
    simp [ha]

/-- Folding the `setdefault`-append step from the empty dict over a nonempty
list of rows all in season `s` yields the single bucket holding the rows'
scene seasons in order. -/
theorem foldl_sdAppend_all (s : Int) (rows : List SNRow)
    (hrows : ∀ r ∈ rows, r.season = s) (hne : rows ≠ []) :
    rows.foldl (fun m r => sdAppend m r.season r.scene_season) []
      = [(s, rows.map (fun r => r.scene_season))] := by
  cases rows with
  | nil => exact absurd rfl hne
  | cons a t =>
    have ha : a.season = s := hrows a (List.mem_cons_self a t)
    have h0 : sdAppend ([] : List (Int × List Int)) a.season a.scene_season
        = [(s, [a.scene_season])] := by
      simp [sdAppend, ha]
    rw [List.foldl_cons, h0, foldl_sdAppend_const s t [a.scene_season]
      (fun r hr => hrows r (List.mem_cons_of_mem a hr))]
    simp

/-- C10: for a fresh show, `get_xem_numbering_for_season` maps the requested
season to the scene seasons referenced by the season's cached rows -- an
int is in the bucket exactly when some cached row of that show and season
references it -- and when no cached row exists for the season it returns the
season mapped to itself, `[(season, [season])]`. -/
theorem C10_season_scene_seasons (w : World) (db : DB) (iid s : Int)
    (hfresh : xem_refresh_needed w db (some iid) = false) :
    (db.xem_numbering.filter (fun r => decide (r.indexer_id = iid ∧ r.season = s)) = [] →
        (get_xem_numbering_for_season w db (some iid) (some s)).1 = [(s, [s])])
    ∧ (∀ rows,
        db.xem_numbering.filter (fun r => decide (r.indexer_id = iid ∧ r.season = s)) = rows →
        rows ≠ [] →
        (get_xem_numbering_for_season w db (some iid) (some s)).1
          = [(s, rows.map (fun r => r.scene_season))]
        ∧ (∀ x : Int, x ∈ rows.map (fun r => r.scene_season)
            ↔ ∃ r ∈ rows, r.scene_season = x)) := by
  constructor
  · intro h0
    simp only [get_xem_numbering_for_season, hfresh, Bool.false_eq_true, if_false, h0]
    simp [sdAppend]
  · intro rows hrows hne
    have hall : ∀ r ∈ rows, r.season = s := by
      intro r hr
      rw [← hrows] at hr
      have hp := List.of_mem_filter hr
      simp only [decide_eq_true_eq] at hp
      exact hp.2
    refine ⟨?_, fun x => List.mem_map⟩
    simp only [get_xem_numbering_for_season, hfresh, Bool.false_eq_true, if_false, hrows]
    cases hr2 : rows with
    | nil => exact absurd hr2 hne
    | cons a t =>
      simpa using foldl_sdAppend_all s (a :: t) (hr2 ▸ hall) (by simp)

theorem C10_season_scene_seasons_witness :
    (get_xem_numbering_for_season ⟨0, fun _ => .exn, fun _ => .exn⟩
        ⟨[], [⟨1, 2, 1, 7, 7⟩], [(1, 0)], 0⟩ (some 1) (some 2)).1 = [(2, [7])] := by
  have h := (C10_season_scene_seasons ⟨0, fun _ => .exn, fun _ => .exn⟩
      ⟨[], [⟨1, 2, 1, 7, 7⟩], [(1, 0)], 0⟩ 1 2 (by decide)).2
      [⟨1, 2, 1, 7, 7⟩] (by decide) (by decide)
  have h1 := h.1
  rw [h1]
  decide

end SceneNumbering
